import Mathlib

/-!
Shallow embedding of the Elearning-for-kids backend.

The repository holds two revisions of the same Express server:

* `src/server.js` (the updated revision): `POST /api/ask` validates the
  request, optionally transcribes audio, optionally cleans the transcript,
  generates a reply from a system prompt plus bounded history, synthesizes
  speech, best-effort persists the turn to Firestore and answers with JSON.
* `src/unnamed/part_000` (the original revision): the same pipeline without
  validation beyond audio presence, without history, uid or persistence.

External services (OpenAI transcription / generation / speech, the Firebase
token verifier and the Firestore write) are modelled as oracles supplied per
request: each awaited call either returns a value or throws with a message.
A handler is a pure function from configuration, oracles and request to the
HTTP response together with the ordered trace of external calls it made.
-/

/-- One chat message as passed to the generation service: a role
(system / user / assistant) and its text content. -/
structure Turn where
  role : String
  content : String
  deriving DecidableEq, Repr

/-- Outcome of one awaited external call: a returned value, or a thrown
error carrying the message later inspected by the catch handler. -/
inductive CallResult (α : Type) where
  | ok (val : α)
  | fail (msg : String)
  deriving DecidableEq, Repr

/-- The JSON body of an HTTP response, together with its status code.
Absent fields are `none`; `error` is the typed error code. -/
structure Response where
  status : Nat
  error : Option String
  message : Option String
  conversationId : Option String
  transcript : Option String
  text : Option String
  audioBase64 : Option String
  deriving DecidableEq, Repr

/-- An error response of the updated revision: status, code and
human-readable message (server.js always sends a `message` field). -/
def errResp (status : Nat) (code msg : String) : Response :=
  ⟨status, some code, some msg, none, none, none, none⟩

/-- An error response of the original revision (part_000): status and code
only, with no `message` field. -/
def errResp0 (status : Nat) (code : String) : Response :=
  ⟨status, some code, none, none, none, none, none⟩

/-- The success response of server.js (line 187): conversationId,
transcript, reply text and base64 audio, HTTP 200. -/
def okResp (conversationId transcript text audioBase64 : String) : Response :=
  ⟨200, none, none, some conversationId, some transcript, some text, some audioBase64⟩

/-- The success response of part_000 (line 68): transcript, reply text and
base64 audio only — no conversationId field. HTTP 200. -/
def okResp0 (transcript text audioBase64 : String) : Response :=
  ⟨200, none, none, none, some transcript, some text, some audioBase64⟩

/-- server.js line 98. -/
def mcResp : Response := errResp 400 "missing_conversation" "No conversationId provided."

/-- server.js line 101. -/
def mlResp : Response := errResp 400 "missing_language" "Please select both Speaking and Answer languages."

/-- server.js line 105. -/
def unauthResp : Response := errResp 401 "unauthenticated" "UID does not match authenticated user."

/-- server.js line 121. -/
def noInputResp : Response := errResp 400 "no_input" "No valid audio or text provided."

/-- server.js line 196. -/
def tooShortResp : Response := errResp 400 "audio_too_short" "Audio too short. Please record at least 1 second."

/-- server.js line 199. -/
def invalidLangResp : Response := errResp 400 "invalid_language" "Unsupported language code."

/-- server.js line 202. -/
def failedResp : Response := errResp 500 "processing_failed" "Something went wrong while processing input."

/-- part_000 line 30: `res.status(400).json({ error: "no_audio" })`. -/
def noAudioResp : Response := errResp0 400 "no_audio"

/-- part_000 line 75: `res.status(500).json({ error: "processing_failed" })`. -/
def failedResp0 : Response := errResp0 500 "processing_failed"

/-- JS `String.prototype.trim`: drop surrounding whitespace. Defined by
structural recursion over the character list (the JS code calls `.trim()`
on the language, conversation, uid and text fields). -/
def String.jsTrim (s : String) : String :=
  ⟨((s.data.dropWhile Char.isWhitespace).reverse.dropWhile Char.isWhitespace).reverse⟩

/-- JS `String.prototype.toLowerCase` on the ASCII error messages the
catch handler inspects. -/
def String.jsLower (s : String) : String :=
  ⟨s.data.map Char.toLower⟩

/-- Helper for `occursIn`: does `pat` occur in the character list? -/
def occursInAux (pat : List Char) : List Char → Bool
  | [] => pat.isEmpty
  | c :: cs => pat.isPrefixOf (c :: cs) || occursInAux pat cs

/-- JS `String.prototype.includes`: `pat` occurs as a contiguous substring
of `s`. -/
def occursIn (s pat : String) : Bool :=
  occursInAux pat.toList s.toList

/-- The catch handler of server.js (lines 193-203): lowercase the thrown
message, match substrings, and map to a typed error response. -/
def mapError (m : String) : Response :=
  let msg := m.jsLower
  if occursIn msg "shorter than" || occursIn msg "too short" then tooShortResp
  else if occursIn msg "invalid" && occursIn msg "language" then invalidLangResp
  else failedResp

/-- Server configuration of the updated revision: whether Firebase Admin
initialized (server.js lines 21-29) and the CLEAN_TRANSCRIPT flag
(line 34). -/
structure Config where
  adminInit : Bool
  cleanTranscript : Bool
  deriving DecidableEq, Repr

/-- Per-request behaviour of the external collaborators of server.js.
`verifyToken` is the outcome of `admin.auth().verifyIdToken`: `some d`
when verification succeeds and the decoded token carries uid `d`, `none`
when it throws. `persistWrite` is the outcome of the Firestore writes
(lines 162-181), whose failure is caught and only logged. -/
structure Services where
  verifyToken : Option String
  transcribe : CallResult String
  clean : CallResult String
  generate : CallResult String
  synthesize : CallResult String
  persistWrite : CallResult Unit
  deriving DecidableEq, Repr

/-- How the `history` field of the request body arrives (server.js lines
86-95): absent (or falsy), parsed to a JSON array of turns, parsed to a
non-array value, or unparseable JSON. -/
inductive HistField where
  | absent
  | arr (l : List Turn)
  | notArray
  | malformed
  deriving DecidableEq, Repr

/-- The request fields read by the server.js handler. `bearer` is the
token extracted from an `Authorization: Bearer ...` header when present;
`audioSize` is `some n` when a multipart audio file with a buffer of `n`
bytes was uploaded; `text` is the JSON `text` field. -/
structure Request where
  bearer : Option String
  answerLanguage : String
  speakLanguage : String
  conversationId : String
  uid : String
  history : HistField
  audioSize : Option Nat
  text : Option String
  deriving DecidableEq, Repr

/-- server.js lines 86-95: the client history list, defaulting to `[]`
when the field is absent, unparseable or not an array. -/
def histList : HistField → List Turn
  | .arr l => l
  | _ => []

/-- The verifyFirebaseToken middleware (server.js lines 52-68):
`req.firebaseUser` is the decoded token only when a Bearer token is
present, the admin SDK is initialized and verification succeeds;
otherwise `null` (verification failure is caught, not propagated). -/
def firebaseUser (cfg : Config) (svc : Services) (req : Request) : Option String :=
  if req.bearer.isSome && cfg.adminInit then svc.verifyToken else none

/-- server.js line 104: `req.firebaseUser && req.firebaseUser.uid &&
uid !== req.firebaseUser.uid` (the surrounding `uid &&` is checked at the
call site). -/
def uidMismatch (uid : String) (fb : Option String) : Bool :=
  match fb with
  | some d => d ≠ "" && uid ≠ d
  | none => false

/-- server.js line 109: the audio path is taken only when a file with a
buffer of at least 5000 bytes was uploaded. -/
def audioOK (req : Request) : Bool :=
  match req.audioSize with
  | some n => decide (5000 ≤ n)
  | none => false

/-- server.js line 118: the text fallback requires a non-empty trimmed
`text` field; returns the trimmed text when usable. -/
def textValue (req : Request) : Option String :=
  match req.text with
  | some s => if s.jsTrim = "" then none else some s.jsTrim
  | none => none

/-- The system prompt of server.js (lines 138-142). -/
def sysPrompt (answerLanguage : String) : String :=
  "You are a " ++ answerLanguage ++ " kids e-learning helper for Indian kids. " ++
    "This API key is for child-friendly education. Use very simple words, short sentences, warm tone. " ++
    "Use the chat history to keep continuity and clarify doubts with tiny examples. " ++
    "Avoid adult/harmful content. Always answer in " ++ answerLanguage ++ "."

/-- server.js lines 143-147: system prompt, then the trimmed history, then
the new user turn. -/
def mkMessages (answerLanguage : String) (hist : List Turn) (userText : String) : List Turn :=
  ⟨"system", sysPrompt answerLanguage⟩ :: hist ++ [⟨"user", userText⟩]

/-- server.js line 135: `const MAX_TURNS = 6`. -/
def MAX_TURNS : Nat := 6

/-- server.js line 136: `clientHistory.slice(-MAX_TURNS * 2)` — the last
at-most-12 entries of the client history. -/
def safeHistory (l : List Turn) : List Turn :=
  l.drop (l.length - MAX_TURNS * 2)

/-- One external call made by a handler, in the order it was awaited.
`generate` records the messages passed to the generation service;
`persist` records the uid and conversationId the turn is stored under. -/
inductive Call where
  | transcribe
  | clean
  | generate (msgs : List Turn)
  | synthesize
  | persist (uid : String) (conversationId : String)
  deriving DecidableEq, Repr

/-- The inner try/catch around the Firestore writes (server.js lines
161-184): failure is caught and only logged, so the outcome is discarded. -/
def persistOutcomeIgnored (r : CallResult Unit) : Unit :=
  match r with
  | .ok _ => ()
  | .fail _ => ()

/-- server.js lines 134-192: build messages from the trimmed history,
generate the reply, synthesize speech, best-effort persist, respond.
A thrown failure is mapped by the catch handler. -/
def genStage (cfg : Config) (svc : Services) (answerLanguage conversationId uid : String)
    (clientHistory : List Turn) (userText : String) (tr : List Call) : Response × List Call :=
  let msgs := mkMessages answerLanguage (safeHistory clientHistory) userText
  match svc.generate with
  | .fail m => (mapError m, tr ++ [Call.generate msgs])
  | .ok g =>
    match svc.synthesize with
    | .fail m => (mapError m, tr ++ [Call.generate msgs, Call.synthesize])
    | .ok b =>
      if cfg.adminInit ∧ uid ≠ "" then
        let _ := persistOutcomeIgnored svc.persistWrite
        (okResp conversationId userText g.jsTrim b,
          tr ++ [Call.generate msgs, Call.synthesize, Call.persist uid conversationId])
      else
        (okResp conversationId userText g.jsTrim b,
          tr ++ [Call.generate msgs, Call.synthesize])

/-- server.js lines 124-133: when CLEAN_TRANSCRIPT is set and the user
text is non-empty, one extra generation call fixes transcription errors;
a falsy cleaned output falls back to the original text. -/
def cleanStage (cfg : Config) (svc : Services) (answerLanguage conversationId uid : String)
    (clientHistory : List Turn) (userText : String) (tr : List Call) : Response × List Call :=
  if cfg.cleanTranscript ∧ userText ≠ "" then
    match svc.clean with
    | .fail m => (mapError m, tr ++ [Call.clean])
    | .ok c =>
      genStage cfg svc answerLanguage conversationId uid clientHistory
        ((if c = "" then userText else c).jsTrim) (tr ++ [Call.clean])
  else
    genStage cfg svc answerLanguage conversationId uid clientHistory userText tr

/-- The `POST /api/ask` handler of src/server.js (lines 78-204): trim the
fields, validate, check uid against the decoded token, pick the audio or
text input, then run the pipeline. Returns the response and the ordered
trace of external calls. -/
def handle (cfg : Config) (svc : Services) (req : Request) : Response × List Call :=
  let fbUser := firebaseUser cfg svc req
  let answerLanguage := req.answerLanguage.jsTrim
  let speakLanguage := req.speakLanguage.jsTrim
  let conversationId := req.conversationId.jsTrim
  let uid := req.uid.jsTrim
  let clientHistory := histList req.history
  if conversationId = "" then (mcResp, [])
  else if answerLanguage = "" ∨ speakLanguage = "" then (mlResp, [])
  else if uid ≠ "" ∧ uidMismatch uid fbUser then (unauthResp, [])
  else if audioOK req then
    match svc.transcribe with
    | .fail m => (mapError m, [Call.transcribe])
    | .ok t =>
      cleanStage cfg svc answerLanguage conversationId uid clientHistory t.jsTrim [Call.transcribe]
  else
    match textValue req with
    | some s => cleanStage cfg svc answerLanguage conversationId uid clientHistory s []
    | none => (noInputResp, [])

/-- Request fields read by the original revision (part_000): the
`targetLanguage` body field (empty string for a falsy value) and whether
a multipart audio file is present. -/
structure Request0 where
  targetLanguage : String
  hasAudio : Bool
  deriving DecidableEq, Repr

/-- External collaborators of the original revision. -/
structure Services0 where
  transcribe : CallResult String
  generate : CallResult String
  synthesize : CallResult String
  deriving DecidableEq, Repr

/-- The system prompt of part_000 (lines 47-49). -/
def sysPrompt0 (targetLanguage : String) : String :=
  "You are a friendly kids tutor. Use simple words, short sentences, and fun examples. " ++
    "Never include harmful content. Always answer in " ++ targetLanguage ++ "."

/-- The `POST /api/ask` handler of src/unnamed/part_000 (lines 25-77):
reject missing audio, transcribe, generate from a two-message input (no
history), synthesize, respond. Every thrown failure is caught and mapped
to the bare 500 processing_failed response. -/
def handle0 (svc : Services0) (req : Request0) : Response × List Call :=
  let targetLanguage := (if req.targetLanguage = "" then "English" else req.targetLanguage).jsTrim
  if req.hasAudio = false then (noAudioResp, [])
  else
    match svc.transcribe with
    | .fail _ => (failedResp0, [Call.transcribe])
    | .ok t =>
      let userText := t.jsTrim
      let msgs : List Turn := [⟨"system", sysPrompt0 targetLanguage⟩, ⟨"user", userText⟩]
      match svc.generate with
      | .fail _ => (failedResp0, [Call.transcribe, Call.generate msgs])
      | .ok g =>
        match svc.synthesize with
        | .fail _ => (failedResp0, [Call.transcribe, Call.generate msgs, Call.synthesize])
        | .ok b =>
          (okResp0 userText g.jsTrim b, [Call.transcribe, Call.generate msgs, Call.synthesize])

/-- Pipeline position of each external call, for stating the strict
ordering of the awaited calls. -/
def stageNo : Call → Nat
  | .transcribe => 0
  | .clean => 1
  | .generate _ => 2
  | .synthesize => 3
  | .persist _ _ => 4

/-- A trace is strictly ordered along the pipeline: each call happens at
most once, in the order transcribe, clean, generate, synthesize, persist. -/
def CallsOrdered (tr : List Call) : Prop :=
  tr.Pairwise (fun a b => stageNo a < stageNo b)

/-- The three validation gates of server.js (lines 97-106) all passed:
non-empty conversationId, both languages present, and no uid mismatch
against the decoded token. -/
def passedValidation (cfg : Config) (svc : Services) (req : Request) : Prop :=
  ¬req.conversationId.jsTrim = "" ∧
    ¬(req.answerLanguage.jsTrim = "" ∨ req.speakLanguage.jsTrim = "") ∧
    ¬(req.uid.jsTrim ≠ "" ∧ uidMismatch req.uid.jsTrim (firebaseUser cfg svc req) = true)

/-- Swap the Firestore-write outcome of a service bundle, leaving every
other collaborator unchanged. -/
def setPersist (svc : Services) (p : CallResult Unit) : Services :=
  ⟨svc.verifyToken, svc.transcribe, svc.clean, svc.generate, svc.synthesize, p⟩

/-- Swap the history field of a request, leaving every other field
unchanged. -/
def setHistory (req : Request) (hf : HistField) : Request :=
  ⟨req.bearer, req.answerLanguage, req.speakLanguage, req.conversationId, req.uid, hf,
    req.audioSize, req.text⟩

/-- Sample configuration: admin SDK not initialized, cleanup disabled. -/
def cfgPlain : Config := ⟨false, false⟩

/-- Sample configuration: admin SDK initialized, cleanup disabled. -/
def cfgAdmin : Config := ⟨true, false⟩

/-- Sample configuration: admin SDK not initialized, cleanup enabled. -/
def cfgClean : Config := ⟨false, true⟩

/-- Sample oracles where every external call succeeds. -/
def svcAllOk : Services := ⟨some "kid1", CallResult.ok " hello ", CallResult.ok "hello",
  CallResult.ok "A reply", CallResult.ok "QUJD", CallResult.ok ()⟩

/-- Sample oracles whose transcription call throws the OpenAI short-audio
message (which contains "shorter than" but not "too short"). -/
def svcSttShort : Services := ⟨some "kid1",
  CallResult.fail "Audio file is shorter than the minimum audio length",
  CallResult.ok "hello", CallResult.ok "A reply", CallResult.ok "QUJD", CallResult.ok ()⟩

/-- Sample oracles whose generation call throws. -/
def svcGenFail : Services := ⟨some "kid1", CallResult.ok " hello ", CallResult.ok "hello",
  CallResult.fail "boom", CallResult.ok "QUJD", CallResult.ok ()⟩

/-- Sample oracles where token verification decodes uid "other". -/
def svcTok : Services := ⟨some "other", CallResult.ok " hello ", CallResult.ok "hello",
  CallResult.ok "A reply", CallResult.ok "QUJD", CallResult.ok ()⟩

/-- Sample oracles where token verification decodes a token whose uid is
the empty string. -/
def svcTokEmpty : Services := ⟨some "", CallResult.ok " hello ", CallResult.ok "hello",
  CallResult.ok "A reply", CallResult.ok "QUJD", CallResult.ok ()⟩

/-- A valid text-only request with no uid and no token. -/
def reqTextOnly : Request := ⟨none, "English", "Tamil", "c1", "", HistField.absent, none,
  some "What is two plus two"⟩

/-- A valid text-only request with uid "kid1" and no Authorization header. -/
def reqUidOk : Request := ⟨none, "English", "Tamil", "c1", "kid1", HistField.absent, none,
  some "hello"⟩

/-- A valid text-only request with uid "kid1" and a Bearer token. -/
def reqUid : Request := ⟨some "tok", "English", "Tamil", "c1", "kid1", HistField.absent, none,
  some "hello"⟩

/-- A valid request with a 6000-byte audio upload and no text. -/
def reqAudio : Request := ⟨none, "English", "Tamil", "c1", "", HistField.absent, some 6000,
  none⟩

/-- A request with a 100-byte audio upload (below the 5000-byte gate) and
no text. -/
def reqSmallAudio : Request := ⟨none, "English", "Tamil", "c1", "", HistField.absent,
  some 100, none⟩

/-- A request whose conversationId is whitespace (empty after trimming). -/
def reqNoConv : Request := ⟨none, "English", "Tamil", " ", "", HistField.absent, none,
  some "hello"⟩

/-- A request with both language fields empty. -/
def reqNoLang : Request := ⟨none, "", "", "c1", "", HistField.absent, none, some "hello"⟩

/-- A two-turn client history. -/
def histSample : List Turn := [⟨"user", "hi"⟩, ⟨"assistant", "hello"⟩]

/-- A valid text request carrying `histSample` as parsed history. -/
def reqHist : Request := ⟨none, "English", "Tamil", "c1", "", HistField.arr histSample, none,
  some "Question"⟩

/-- part_000 oracles where every call succeeds. -/
def svc0Ok : Services0 := ⟨CallResult.ok " 2+2 ", CallResult.ok "four", CallResult.ok "AAA"⟩

/-- part_000 request with audio present. -/
def req0Audio : Request0 := ⟨"English", true⟩

lemma mapError_cases (m : String) :
    mapError m = tooShortResp ∨ mapError m = invalidLangResp ∨ mapError m = failedResp := by
  simp only [mapError]
  split
  · exact Or.inl rfl
  · split
    · exact Or.inr (Or.inl rfl)
    · exact Or.inr (Or.inr rfl)

lemma mapError_isError (m : String) :
    400 ≤ (mapError m).status ∧ (mapError m).error.isSome = true := by
  rcases mapError_cases m with h | h | h <;> rw [h] <;> exact ⟨by decide, by decide⟩

lemma genStage_shape (cfg : Config) (svc : Services) (a c u : String) (h : List Turn)
    (t : String) (tr : List Call) :
    (∃ m, (genStage cfg svc a c u h t tr).1 = mapError m) ∨
      ∃ g b, (genStage cfg svc a c u h t tr).1 = okResp c t g b := by
  cases h1 : svc.generate with
  | fail m => exact Or.inl ⟨m, by simp [genStage, h1]⟩
  | ok g =>
    cases h2 : svc.synthesize with
    | fail m => exact Or.inl ⟨m, by simp [genStage, h1, h2]⟩
    | ok b =>
      refine Or.inr ⟨g.jsTrim, b, ?_⟩
      simp only [genStage, h1, h2]
      split <;> rfl

lemma cleanStage_shape (cfg : Config) (svc : Services) (a c u : String) (h : List Turn)
    (t : String) (tr : List Call) :
    (∃ m, (cleanStage cfg svc a c u h t tr).1 = mapError m) ∨
      ∃ t2 g b, (cleanStage cfg svc a c u h t tr).1 = okResp c t2 g b := by
  simp only [cleanStage]
  split
  · cases h1 : svc.clean with
    | fail m => exact Or.inl ⟨m, by simp⟩
    | ok cl =>
      simp only
      rcases genStage_shape cfg svc a c u h ((if cl = "" then t else cl).jsTrim)
          (tr ++ [Call.clean]) with ⟨m, hm⟩ | ⟨g, b, hg⟩
      · exact Or.inl ⟨m, hm⟩
      · exact Or.inr ⟨_, g, b, hg⟩
  · rcases genStage_shape cfg svc a c u h t tr with ⟨m, hm⟩ | ⟨g, b, hg⟩
    · exact Or.inl ⟨m, hm⟩
    · exact Or.inr ⟨_, g, b, hg⟩

lemma handle_shape (cfg : Config) (svc : Services) (req : Request) :
    (handle cfg svc req).1 = mcResp ∨ (handle cfg svc req).1 = mlResp ∨
      (handle cfg svc req).1 = unauthResp ∨ (handle cfg svc req).1 = noInputResp ∨
      (∃ m, (handle cfg svc req).1 = mapError m) ∨
      ∃ t g b, (handle cfg svc req).1 = okResp req.conversationId.jsTrim t g b := by
  simp only [handle]
  split
  · exact Or.inl rfl
  · split
    · exact Or.inr (Or.inl rfl)
    · split
      · exact Or.inr (Or.inr (Or.inl rfl))
      · split
        · cases h1 : svc.transcribe with
          | fail m => exact Or.inr (Or.inr (Or.inr (Or.inr (Or.inl ⟨m, by simp⟩))))
          | ok t =>
            simp only
            rcases cleanStage_shape cfg svc req.answerLanguage.jsTrim req.conversationId.jsTrim
                req.uid.jsTrim (histList req.history) t.jsTrim [Call.transcribe] with
              ⟨m, hm⟩ | ⟨t2, g, b, hg⟩
            · exact Or.inr (Or.inr (Or.inr (Or.inr (Or.inl ⟨m, hm⟩))))
            · exact Or.inr (Or.inr (Or.inr (Or.inr (Or.inr ⟨t2, g, b, hg⟩))))
        · cases h2 : textValue req with
          | none => exact Or.inr (Or.inr (Or.inr (Or.inl (by simp))))
          | some s =>
            simp only
            rcases cleanStage_shape cfg svc req.answerLanguage.jsTrim req.conversationId.jsTrim
                req.uid.jsTrim (histList req.history) s [] with ⟨m, hm⟩ | ⟨t2, g, b, hg⟩
            · exact Or.inr (Or.inr (Or.inr (Or.inr (Or.inl ⟨m, hm⟩))))
            · exact Or.inr (Or.inr (Or.inr (Or.inr (Or.inr ⟨t2, g, b, hg⟩))))

lemma genStage_trace (cfg : Config) (svc : Services) (a c u : String) (h : List Turn)
    (t : String) (tr : List Call) :
    ∃ rest, (genStage cfg svc a c u h t tr).2 = tr ++ rest ∧
      rest.Pairwise (fun x y => stageNo x < stageNo y) ∧ ∀ x ∈ rest, 2 ≤ stageNo x := by
  cases h1 : svc.generate with
  | fail m =>
    exact ⟨[Call.generate (mkMessages a (safeHistory h) t)], by simp [genStage, h1],
      by simp, by simp [stageNo]⟩
  | ok g =>
    cases h2 : svc.synthesize with
    | fail m =>
      exact ⟨[Call.generate (mkMessages a (safeHistory h) t), Call.synthesize],
        by simp [genStage, h1, h2], by simp [stageNo], by
          intro x hx
          fin_cases hx <;> simp [stageNo]⟩
    | ok b =>
      simp only [genStage, h1, h2]
      split
      · exact ⟨[Call.generate (mkMessages a (safeHistory h) t), Call.synthesize,
          Call.persist u c], by simp, by simp [stageNo], by
            intro x hx
            fin_cases hx <;> simp [stageNo]⟩
      · exact ⟨[Call.generate (mkMessages a (safeHistory h) t), Call.synthesize],
          by simp, by simp [stageNo], by
            intro x hx
            fin_cases hx <;> simp [stageNo]⟩

lemma cleanStage_trace (cfg : Config) (svc : Services) (a c u : String) (h : List Turn)
    (t : String) (tr : List Call) :
    ∃ rest, (cleanStage cfg svc a c u h t tr).2 = tr ++ rest ∧
      rest.Pairwise (fun x y => stageNo x < stageNo y) ∧ ∀ x ∈ rest, 1 ≤ stageNo x := by
  simp only [cleanStage]
  split
  · cases h1 : svc.clean with
    | fail m => exact ⟨[Call.clean], by simp, by simp, by simp [stageNo]⟩
    | ok cl =>
      simp only
      obtain ⟨rest, hr, hp, hs⟩ := genStage_trace cfg svc a c u h
        ((if cl = "" then t else cl).jsTrim) (tr ++ [Call.clean])
      refine ⟨Call.clean :: rest, by simp [hr], ?_, ?_⟩
      · exact List.pairwise_cons.2 ⟨fun y hy => lt_of_lt_of_le (by simp [stageNo]) (hs y hy), hp⟩
      · intro x hx
        rcases List.mem_cons.1 hx with rfl | hx
        · simp [stageNo]
        · exact le_trans (by decide) (hs x hx)
  · obtain ⟨rest, hr, hp, hs⟩ := genStage_trace cfg svc a c u h t tr
    exact ⟨rest, hr, hp, fun x hx => le_trans (by decide) (hs x hx)⟩

lemma handle_ordered (cfg : Config) (svc : Services) (req : Request) :
    CallsOrdered (handle cfg svc req).2 := by
  simp only [handle, CallsOrdered]
  split
  · simp
  · split
    · simp
    · split
      · simp
      · split
        · cases h1 : svc.transcribe with
          | fail m => simp
          | ok t =>
            simp only
            obtain ⟨rest, hr, hp, hs⟩ := cleanStage_trace cfg svc req.answerLanguage.jsTrim
              req.conversationId.jsTrim req.uid.jsTrim (histList req.history) t.jsTrim [Call.transcribe]
            rw [hr]
            refine (List.pairwise_append).2 ⟨by simp, hp, ?_⟩
            intro x hx y hy
            simp only [List.mem_singleton] at hx
            subst hx
            exact lt_of_lt_of_le (by simp [stageNo]) (hs y hy)
        · cases h2 : textValue req with
          | none => simp
          | some s =>
            simp only
            obtain ⟨rest, hr, hp, hs⟩ := cleanStage_trace cfg svc req.answerLanguage.jsTrim
              req.conversationId.jsTrim req.uid.jsTrim (histList req.history) s []
            rw [hr]
            simpa using hp

lemma genStage_cases_full (cfg : Config) (svc : Services) (a c u : String) (h : List Turn)
    (t : String) (tr : List Call) :
    (∃ m, svc.generate = CallResult.fail m ∧
      genStage cfg svc a c u h t tr =
        (mapError m, tr ++ [Call.generate (mkMessages a (safeHistory h) t)])) ∨
    (∃ g m, svc.generate = CallResult.ok g ∧ svc.synthesize = CallResult.fail m ∧
      genStage cfg svc a c u h t tr =
        (mapError m, tr ++ [Call.generate (mkMessages a (safeHistory h) t), Call.synthesize])) ∨
    (∃ g b post, svc.generate = CallResult.ok g ∧ svc.synthesize = CallResult.ok b ∧
      post = (if cfg.adminInit ∧ u ≠ "" then [Call.persist u c] else []) ∧
      genStage cfg svc a c u h t tr =
        (okResp c t g.jsTrim b,
          tr ++ [Call.generate (mkMessages a (safeHistory h) t), Call.synthesize] ++ post)) := by
  cases h1 : svc.generate with
  | fail m => exact Or.inl ⟨m, rfl, by simp [genStage, h1]⟩
  | ok g =>
    cases h2 : svc.synthesize with
    | fail m => exact Or.inr (Or.inl ⟨g, m, rfl, rfl, by simp [genStage, h1, h2]⟩)
    | ok b =>
      by_cases hpw : cfg.adminInit ∧ u ≠ ""
      · exact Or.inr (Or.inr ⟨g, b, [Call.persist u c], rfl, rfl, by simp [hpw], by
          simp [genStage, h1, h2, hpw]⟩)
      · exact Or.inr (Or.inr ⟨g, b, [], rfl, rfl, by simp [hpw], by
          simp [genStage, h1, h2, hpw]⟩)

lemma cleanStage_cases_full (cfg : Config) (svc : Services) (a c u : String) (h : List Turn)
    (t : String) (tr : List Call) :
    (∃ m, (cfg.cleanTranscript = true ∧ t ≠ "") ∧ svc.clean = CallResult.fail m ∧
      cleanStage cfg svc a c u h t tr = (mapError m, tr ++ [Call.clean])) ∨
    (∃ t2 mid, ((∃ cl, (cfg.cleanTranscript = true ∧ t ≠ "") ∧
          svc.clean = CallResult.ok cl ∧ mid = tr ++ [Call.clean]) ∨
        (mid = tr ∧ t2 = t)) ∧
      cleanStage cfg svc a c u h t tr = genStage cfg svc a c u h t2 mid) := by
  simp only [cleanStage]
  split
  next hcond =>
    cases h1 : svc.clean with
    | fail m => exact Or.inl ⟨m, hcond, rfl, by simp⟩
    | ok cl =>
      exact Or.inr ⟨(if cl = "" then t else cl).jsTrim, tr ++ [Call.clean],
        Or.inl ⟨cl, hcond, rfl, rfl⟩, by simp⟩
  next hcond => exact Or.inr ⟨t, tr, Or.inr ⟨rfl, rfl⟩, rfl⟩

lemma handle_cases_full (cfg : Config) (svc : Services) (req : Request) :
    (req.conversationId.jsTrim = "" ∧ handle cfg svc req = (mcResp, [])) ∨
    (¬req.conversationId.jsTrim = "" ∧
      (req.answerLanguage.jsTrim = "" ∨ req.speakLanguage.jsTrim = "") ∧
      handle cfg svc req = (mlResp, [])) ∨
    (¬req.conversationId.jsTrim = "" ∧
      ¬(req.answerLanguage.jsTrim = "" ∨ req.speakLanguage.jsTrim = "") ∧
      (req.uid.jsTrim ≠ "" ∧ uidMismatch req.uid.jsTrim (firebaseUser cfg svc req) = true) ∧
      handle cfg svc req = (unauthResp, [])) ∨
    (passedValidation cfg svc req ∧ audioOK req = true ∧
      ∃ m, svc.transcribe = CallResult.fail m ∧
        handle cfg svc req = (mapError m, [Call.transcribe])) ∨
    (passedValidation cfg svc req ∧ audioOK req = true ∧
      ∃ t0, svc.transcribe = CallResult.ok t0 ∧
        handle cfg svc req = cleanStage cfg svc req.answerLanguage.jsTrim req.conversationId.jsTrim
          req.uid.jsTrim (histList req.history) t0.jsTrim [Call.transcribe]) ∨
    (passedValidation cfg svc req ∧ ¬audioOK req = true ∧
      ∃ s, textValue req = some s ∧
        handle cfg svc req = cleanStage cfg svc req.answerLanguage.jsTrim req.conversationId.jsTrim
          req.uid.jsTrim (histList req.history) s []) ∨
    (passedValidation cfg svc req ∧ ¬audioOK req = true ∧ textValue req = none ∧
      handle cfg svc req = (noInputResp, [])) := by
  by_cases hc : req.conversationId.jsTrim = ""
  · exact Or.inl ⟨hc, by simp [handle, hc]⟩
  by_cases hl : req.answerLanguage.jsTrim = "" ∨ req.speakLanguage.jsTrim = ""
  · exact Or.inr (Or.inl ⟨hc, hl, by simp [handle, hc, hl]⟩)
  by_cases hu : req.uid.jsTrim ≠ "" ∧ uidMismatch req.uid.jsTrim (firebaseUser cfg svc req) = true
  · refine Or.inr (Or.inr (Or.inl ⟨hc, hl, hu, ?_⟩))
    simp only [handle]
    rw [if_neg hc, if_neg hl, if_pos]
    exact hu
  have hpass : passedValidation cfg svc req := ⟨hc, hl, hu⟩
  by_cases ha : audioOK req = true
  · cases h1 : svc.transcribe with
    | fail m =>
      refine Or.inr (Or.inr (Or.inr (Or.inl ⟨hpass, ha, m, rfl, ?_⟩)))
      simp only [handle]
      rw [if_neg hc, if_neg hl, if_neg hu, if_pos ha, h1]
    | ok t =>
      refine Or.inr (Or.inr (Or.inr (Or.inr (Or.inl ⟨hpass, ha, t, rfl, ?_⟩))))
      simp only [handle]
      rw [if_neg hc, if_neg hl, if_neg hu, if_pos ha, h1]
  · cases h2 : textValue req with
    | some s =>
      refine Or.inr (Or.inr (Or.inr (Or.inr (Or.inr (Or.inl ⟨hpass, ha, s, rfl, ?_⟩)))))
      simp only [handle]
      rw [if_neg hc, if_neg hl, if_neg hu, if_neg ha, h2]
    | none =>
      refine Or.inr (Or.inr (Or.inr (Or.inr (Or.inr (Or.inr ⟨hpass, ha, rfl, ?_⟩)))))
      simp only [handle]
      rw [if_neg hc, if_neg hl, if_neg hu, if_neg ha, h2]

lemma cleanStage_fail_clean (cfg : Config) (svc : Services) (a c u : String) (hist : List Turn)
    (t : String) (tr : List Call) (m : String) (h1 : svc.clean = CallResult.fail m)
    (h2 : Call.clean ∈ (cleanStage cfg svc a c u hist t tr).2)
    (htr1 : Call.clean ∉ tr) (htr2 : ∀ ms, Call.generate ms ∉ tr)
    (htr3 : Call.synthesize ∉ tr) (htr4 : ∀ u2 c2, Call.persist u2 c2 ∉ tr) :
    (cleanStage cfg svc a c u hist t tr).1 = mapError m ∧
      (∀ ms, Call.generate ms ∉ (cleanStage cfg svc a c u hist t tr).2) ∧
      Call.synthesize ∉ (cleanStage cfg svc a c u hist t tr).2 ∧
      ∀ u2 c2, Call.persist u2 c2 ∉ (cleanStage cfg svc a c u hist t tr).2 := by
  rcases cleanStage_cases_full cfg svc a c u hist t tr with ⟨m0, _, hm0, hc⟩ | ⟨t2, mid, hmid, hc⟩
  · have hmm : m0 = m := by
      have := hm0.symm.trans h1
      injection this
    subst hmm
    rw [hc]
    refine ⟨rfl, ?_, ?_, ?_⟩
    · intro ms hmem
      rcases List.mem_append.1 hmem with hh | hh
      · exact htr2 ms hh
      · simp at hh
    · intro hmem
      rcases List.mem_append.1 hmem with hh | hh
      · exact htr3 hh
      · simp at hh
    · intro u2 c2 hmem
      rcases List.mem_append.1 hmem with hh | hh
      · exact htr4 u2 c2 hh
      · simp at hh
  · rcases hmid with ⟨cl, _, hcl, _⟩ | ⟨hmid, _⟩
    · rw [h1] at hcl
      exact absurd hcl (by simp)
    · exfalso
      rw [hc] at h2
      obtain ⟨rest, hr, _, hsg⟩ := genStage_trace cfg svc a c u hist t2 mid
      rw [hr] at h2
      rcases List.mem_append.1 h2 with hh | hh
      · rw [hmid] at hh
        exact htr1 hh
      · have := hsg _ hh
        simp [stageNo] at this

lemma cleanStage_fail_gen (cfg : Config) (svc : Services) (a c u : String) (hist : List Turn)
    (t : String) (tr : List Call) (m : String) (ms : List Turn)
    (h1 : svc.generate = CallResult.fail m)
    (h2 : Call.generate ms ∈ (cleanStage cfg svc a c u hist t tr).2)
    (htr2 : ∀ ms2, Call.generate ms2 ∉ tr) (htr3 : Call.synthesize ∉ tr)
    (htr4 : ∀ u2 c2, Call.persist u2 c2 ∉ tr) :
    (cleanStage cfg svc a c u hist t tr).1 = mapError m ∧
      Call.synthesize ∉ (cleanStage cfg svc a c u hist t tr).2 ∧
      ∀ u2 c2, Call.persist u2 c2 ∉ (cleanStage cfg svc a c u hist t tr).2 := by
  rcases cleanStage_cases_full cfg svc a c u hist t tr with ⟨m0, _, hm0, hc⟩ | ⟨t2, mid, hmid, hc⟩
  · exfalso
    rw [hc] at h2
    rcases List.mem_append.1 h2 with hh | hh
    · exact htr2 _ hh
    · simp at hh
  · have hmidg : ∀ ms2, Call.generate ms2 ∉ mid := by
      rcases hmid with ⟨cl, _, _, hmid⟩ | ⟨hmid, _⟩ <;> rw [hmid] <;> intro ms2 hmm
      · rcases List.mem_append.1 hmm with hh | hh
        · exact htr2 _ hh
        · simp at hh
      · exact htr2 _ hmm
    have hmids : Call.synthesize ∉ mid := by
      rcases hmid with ⟨cl, _, _, hmid⟩ | ⟨hmid, _⟩ <;> rw [hmid] <;> intro hmm
      · rcases List.mem_append.1 hmm with hh | hh
        · exact htr3 hh
        · simp at hh
      · exact htr3 hmm
    have hmidp : ∀ u2 c2, Call.persist u2 c2 ∉ mid := by
      rcases hmid with ⟨cl, _, _, hmid⟩ | ⟨hmid, _⟩ <;> rw [hmid] <;> intro u2 c2 hmm
      · rcases List.mem_append.1 hmm with hh | hh
        · exact htr4 u2 c2 hh
        · simp at hh
      · exact htr4 u2 c2 hmm
    rw [hc] at h2 ⊢
    rcases genStage_cases_full cfg svc a c u hist t2 mid with
      ⟨m0, hm0, hg⟩ | ⟨g, m0, hg0, _, _⟩ | ⟨g, b, post, hg0, _, _, _⟩
    · have hmm : m0 = m := by
        have := hm0.symm.trans h1
        injection this
      subst hmm
      rw [hg]
      refine ⟨rfl, ?_, ?_⟩
      · intro hmem
        rcases List.mem_append.1 hmem with hh | hh
        · exact hmids hh
        · simp at hh
      · intro u2 c2 hmem
        rcases List.mem_append.1 hmem with hh | hh
        · exact hmidp u2 c2 hh
        · simp at hh
    · rw [h1] at hg0
      exact absurd hg0 (by simp)
    · rw [h1] at hg0
      exact absurd hg0 (by simp)

lemma cleanStage_fail_syn (cfg : Config) (svc : Services) (a c u : String) (hist : List Turn)
    (t : String) (tr : List Call) (m : String)
    (h1 : svc.synthesize = CallResult.fail m)
    (h2 : Call.synthesize ∈ (cleanStage cfg svc a c u hist t tr).2)
    (htr3 : Call.synthesize ∉ tr) (htr4 : ∀ u2 c2, Call.persist u2 c2 ∉ tr) :
    (cleanStage cfg svc a c u hist t tr).1 = mapError m ∧
      ∀ u2 c2, Call.persist u2 c2 ∉ (cleanStage cfg svc a c u hist t tr).2 := by
  rcases cleanStage_cases_full cfg svc a c u hist t tr with ⟨m0, _, hm0, hc⟩ | ⟨t2, mid, hmid, hc⟩
  · exfalso
    rw [hc] at h2
    rcases List.mem_append.1 h2 with hh | hh
    · exact htr3 hh
    · simp at hh
  · have hmids : Call.synthesize ∉ mid := by
      rcases hmid with ⟨cl, _, _, hmid⟩ | ⟨hmid, _⟩ <;> rw [hmid] <;> intro hmm
      · rcases List.mem_append.1 hmm with hh | hh
        · exact htr3 hh
        · simp at hh
      · exact htr3 hmm
    have hmidp : ∀ u2 c2, Call.persist u2 c2 ∉ mid := by
      rcases hmid with ⟨cl, _, _, hmid⟩ | ⟨hmid, _⟩ <;> rw [hmid] <;> intro u2 c2 hmm
      · rcases List.mem_append.1 hmm with hh | hh
        · exact htr4 u2 c2 hh
        · simp at hh
      · exact htr4 u2 c2 hmm
    rw [hc] at h2 ⊢
    rcases genStage_cases_full cfg svc a c u hist t2 mid with
      ⟨m0, hm0, hg⟩ | ⟨g, m0, hg0, hs0, hg⟩ | ⟨g, b, post, hg0, hs0, _, _⟩
    · exfalso
      rw [hg] at h2
      rcases List.mem_append.1 h2 with hh | hh
      · exact hmids hh
      · simp at hh
    · have hmm : m0 = m := by
        have := hs0.symm.trans h1
        injection this
      subst hmm
      rw [hg]
      refine ⟨rfl, ?_⟩
      intro u2 c2 hmem
      rcases List.mem_append.1 hmem with hh | hh
      · exact hmidp u2 c2 hh
      · simp at hh
    · rw [h1] at hs0
      exact absurd hs0 (by simp)

lemma cleanStage_gen_msgs (cfg : Config) (svc : Services) (a c u : String) (hist : List Turn)
    (t : String) (tr : List Call) (ms : List Turn)
    (h2 : Call.generate ms ∈ (cleanStage cfg svc a c u hist t tr).2)
    (htr2 : ∀ ms2, Call.generate ms2 ∉ tr) :
    ∃ t2, ms = mkMessages a (safeHistory hist) t2 := by
  rcases cleanStage_cases_full cfg svc a c u hist t tr with ⟨m0, _, hm0, hc⟩ | ⟨t2, mid, hmid, hc⟩
  · exfalso
    rw [hc] at h2
    rcases List.mem_append.1 h2 with hh | hh
    · exact htr2 _ hh
    · simp at hh
  · have hmidg : ∀ ms2, Call.generate ms2 ∉ mid := by
      rcases hmid with ⟨cl, _, _, hmid⟩ | ⟨hmid, _⟩ <;> rw [hmid] <;> intro ms2 hmm
      · rcases List.mem_append.1 hmm with hh | hh
        · exact htr2 _ hh
        · simp at hh
      · exact htr2 _ hmm
    rw [hc] at h2
    rcases genStage_cases_full cfg svc a c u hist t2 mid with
      ⟨m0, hm0, hg⟩ | ⟨g, m0, hg0, hs0, hg⟩ | ⟨g, b, post, hg0, hs0, hpost, hg⟩
    · rw [hg] at h2
      rcases List.mem_append.1 h2 with hh | hh
      · exact absurd hh (hmidg ms)
      · refine ⟨t2, ?_⟩
        have := List.mem_singleton.1 hh
        injection this
    · rw [hg] at h2
      rcases List.mem_append.1 h2 with hh | hh
      · exact absurd hh (hmidg ms)
      · rcases List.mem_cons.1 hh with hh2 | hh2
        · refine ⟨t2, ?_⟩
          injection hh2
        · simp at hh2
    · rw [hg] at h2
      rcases List.mem_append.1 h2 with hh | hh
      · rcases List.mem_append.1 hh with hh2 | hh2
        · exact absurd hh2 (hmidg ms)
        · rcases List.mem_cons.1 hh2 with hh3 | hh3
          · refine ⟨t2, ?_⟩
            injection hh3
          · simp at hh3
      · rw [hpost] at hh
        split at hh <;> simp at hh

lemma handle_fail_transcribe (cfg : Config) (svc : Services) (req : Request) (m : String)
    (h1 : svc.transcribe = CallResult.fail m)
    (h2 : Call.transcribe ∈ (handle cfg svc req).2) :
    handle cfg svc req = (mapError m, [Call.transcribe]) := by
  rcases handle_cases_full cfg svc req with
    ⟨_, h⟩ | ⟨_, _, h⟩ | ⟨_, _, _, h⟩ | ⟨_, _, m0, hm0, h⟩ | ⟨_, _, t0, ht0, h⟩ |
    ⟨_, _, s, hs, h⟩ | ⟨_, _, _, h⟩
  · rw [h] at h2; simp at h2
  · rw [h] at h2; simp at h2
  · rw [h] at h2; simp at h2
  · have hmm : m0 = m := by
      have := hm0.symm.trans h1
      injection this
    subst hmm
    exact h
  · rw [h1] at ht0
    exact absurd ht0 (by simp)
  · exfalso
    rw [h] at h2
    obtain ⟨rest, hr, _, hsg⟩ := cleanStage_trace cfg svc req.answerLanguage.jsTrim
      req.conversationId.jsTrim req.uid.jsTrim (histList req.history) s []
    rw [hr] at h2
    rw [List.nil_append] at h2
    have := hsg _ h2
    simp [stageNo] at this
  · rw [h] at h2; simp at h2

lemma handle_fail_clean (cfg : Config) (svc : Services) (req : Request) (m : String)
    (h1 : svc.clean = CallResult.fail m)
    (h2 : Call.clean ∈ (handle cfg svc req).2) :
    (handle cfg svc req).1 = mapError m ∧
      (∀ ms, Call.generate ms ∉ (handle cfg svc req).2) ∧
      Call.synthesize ∉ (handle cfg svc req).2 ∧
      ∀ u2 c2, Call.persist u2 c2 ∉ (handle cfg svc req).2 := by
  rcases handle_cases_full cfg svc req with
    ⟨_, h⟩ | ⟨_, _, h⟩ | ⟨_, _, _, h⟩ | ⟨_, _, m0, hm0, h⟩ | ⟨_, _, t0, ht0, h⟩ |
    ⟨_, _, s, hs, h⟩ | ⟨_, _, _, h⟩
  · rw [h] at h2; simp at h2
  · rw [h] at h2; simp at h2
  · rw [h] at h2; simp at h2
  · rw [h] at h2; simp at h2
  · rw [h] at h2 ⊢
    exact cleanStage_fail_clean cfg svc _ _ _ _ _ _ m h1 h2 (by simp) (by simp) (by simp)
      (by simp)
  · rw [h] at h2 ⊢
    exact cleanStage_fail_clean cfg svc _ _ _ _ _ _ m h1 h2 (by simp) (by simp) (by simp)
      (by simp)
  · rw [h] at h2; simp at h2

lemma handle_fail_gen (cfg : Config) (svc : Services) (req : Request) (m : String)
    (ms : List Turn) (h1 : svc.generate = CallResult.fail m)
    (h2 : Call.generate ms ∈ (handle cfg svc req).2) :
    (handle cfg svc req).1 = mapError m ∧
      Call.synthesize ∉ (handle cfg svc req).2 ∧
      ∀ u2 c2, Call.persist u2 c2 ∉ (handle cfg svc req).2 := by
  rcases handle_cases_full cfg svc req with
    ⟨_, h⟩ | ⟨_, _, h⟩ | ⟨_, _, _, h⟩ | ⟨_, _, m0, hm0, h⟩ | ⟨_, _, t0, ht0, h⟩ |
    ⟨_, _, s, hs, h⟩ | ⟨_, _, _, h⟩
  · rw [h] at h2; simp at h2
  · rw [h] at h2; simp at h2
  · rw [h] at h2; simp at h2
  · rw [h] at h2; simp at h2
  · rw [h] at h2 ⊢
    exact cleanStage_fail_gen cfg svc _ _ _ _ _ _ m ms h1 h2 (by simp) (by simp) (by simp)
  · rw [h] at h2 ⊢
    exact cleanStage_fail_gen cfg svc _ _ _ _ _ _ m ms h1 h2 (by simp) (by simp) (by simp)
  · rw [h] at h2; simp at h2

lemma handle_fail_syn (cfg : Config) (svc : Services) (req : Request) (m : String)
    (h1 : svc.synthesize = CallResult.fail m)
    (h2 : Call.synthesize ∈ (handle cfg svc req).2) :
    (handle cfg svc req).1 = mapError m ∧
      ∀ u2 c2, Call.persist u2 c2 ∉ (handle cfg svc req).2 := by
  rcases handle_cases_full cfg svc req with
    ⟨_, h⟩ | ⟨_, _, h⟩ | ⟨_, _, _, h⟩ | ⟨_, _, m0, hm0, h⟩ | ⟨_, _, t0, ht0, h⟩ |
    ⟨_, _, s, hs, h⟩ | ⟨_, _, _, h⟩
  · rw [h] at h2; simp at h2
  · rw [h] at h2; simp at h2
  · rw [h] at h2; simp at h2
  · rw [h] at h2; simp at h2
  · rw [h] at h2 ⊢
    exact cleanStage_fail_syn cfg svc _ _ _ _ _ _ m h1 h2 (by simp) (by simp)
  · rw [h] at h2 ⊢
    exact cleanStage_fail_syn cfg svc _ _ _ _ _ _ m h1 h2 (by simp) (by simp)
  · rw [h] at h2; simp at h2

lemma handle_gen_msgs (cfg : Config) (svc : Services) (req : Request) (ms : List Turn)
    (h2 : Call.generate ms ∈ (handle cfg svc req).2) :
    ∃ t2, ms = mkMessages req.answerLanguage.jsTrim (safeHistory (histList req.history)) t2 := by
  rcases handle_cases_full cfg svc req with
    ⟨_, h⟩ | ⟨_, _, h⟩ | ⟨_, _, _, h⟩ | ⟨_, _, m0, hm0, h⟩ | ⟨_, _, t0, ht0, h⟩ |
    ⟨_, _, s, hs, h⟩ | ⟨_, _, _, h⟩
  · rw [h] at h2; simp at h2
  · rw [h] at h2; simp at h2
  · rw [h] at h2; simp at h2
  · rw [h] at h2; simp at h2
  · rw [h] at h2
    exact cleanStage_gen_msgs cfg svc _ _ _ _ _ _ ms h2 (by simp)
  · rw [h] at h2
    exact cleanStage_gen_msgs cfg svc _ _ _ _ _ _ ms h2 (by simp)
  · rw [h] at h2; simp at h2

lemma cleanStage_clean_enabled (cfg : Config) (svc : Services) (a c u : String)
    (hist : List Turn) (t : String) (tr : List Call)
    (h2 : Call.clean ∈ (cleanStage cfg svc a c u hist t tr).2)
    (htr : Call.clean ∉ tr) : cfg.cleanTranscript = true := by
  rcases cleanStage_cases_full cfg svc a c u hist t tr with
    ⟨m0, hcond, _, _⟩ | ⟨t2, mid, hmid, hc⟩
  · exact hcond.1
  · rcases hmid with ⟨cl, hcond, _, _⟩ | ⟨hmid, _⟩
    · exact hcond.1
    · exfalso
      rw [hc] at h2
      obtain ⟨rest, hr, _, hsg⟩ := genStage_trace cfg svc a c u hist t2 mid
      rw [hr] at h2
      rcases List.mem_append.1 h2 with hh | hh
      · rw [hmid] at hh
        exact htr hh
      · have := hsg _ hh
        simp [stageNo] at this

lemma handle_clean_enabled (cfg : Config) (svc : Services) (req : Request)
    (h2 : Call.clean ∈ (handle cfg svc req).2) : cfg.cleanTranscript = true := by
  rcases handle_cases_full cfg svc req with
    ⟨_, h1⟩ | ⟨_, _, h1⟩ | ⟨_, _, _, h1⟩ | ⟨_, _, m0, hm0, h1⟩ | ⟨_, _, t0, ht0, h1⟩ |
    ⟨_, _, s, hs, h1⟩ | ⟨_, _, _, h1⟩
  · rw [h1] at h2; simp at h2
  · rw [h1] at h2; simp at h2
  · rw [h1] at h2; simp at h2
  · rw [h1] at h2; simp at h2
  · rw [h1] at h2
    exact cleanStage_clean_enabled cfg svc _ _ _ _ _ _ h2 (by simp)
  · rw [h1] at h2
    exact cleanStage_clean_enabled cfg svc _ _ _ _ _ _ h2 (by simp)
  · rw [h1] at h2; simp at h2

lemma handle_transcribe_audio (cfg : Config) (svc : Services) (req : Request)
    (h2 : Call.transcribe ∈ (handle cfg svc req).2) : audioOK req = true := by
  rcases handle_cases_full cfg svc req with
    ⟨_, h1⟩ | ⟨_, _, h1⟩ | ⟨_, _, _, h1⟩ | ⟨_, hA, _⟩ | ⟨_, hA, _⟩ |
    ⟨_, _, s, hs, h1⟩ | ⟨_, _, _, h1⟩
  · rw [h1] at h2; simp at h2
  · rw [h1] at h2; simp at h2
  · rw [h1] at h2; simp at h2
  · exact hA
  · exact hA
  · exfalso
    rw [h1] at h2
    obtain ⟨rest, hr, _, hsg⟩ := cleanStage_trace cfg svc req.answerLanguage.jsTrim
      req.conversationId.jsTrim req.uid.jsTrim (histList req.history) s []
    rw [hr] at h2
    rw [List.nil_append] at h2
    have := hsg _ h2
    simp [stageNo] at this
  · rw [h1] at h2; simp at h2

lemma mapError_ne_unauth (m : String) : mapError m ≠ unauthResp := by
  rcases mapError_cases m with h | h | h <;> rw [h] <;> decide

lemma okResp_ne_unauth (c t g b : String) : okResp c t g b ≠ unauthResp := by
  intro hEq
  have := congrArg Response.error hEq
  simp [okResp, unauthResp, errResp] at this

lemma handle_success_shape (cfg : Config) (svc : Services) (req : Request)
    (h : (handle cfg svc req).1.error = none) :
    ∃ t g b, (handle cfg svc req).1 = okResp req.conversationId.jsTrim t g b := by
  rcases handle_shape cfg svc req with h1 | h1 | h1 | h1 | ⟨m, h1⟩ | ⟨t, g, b, h1⟩
  · rw [h1] at h; simp [mcResp, errResp] at h
  · rw [h1] at h; simp [mlResp, errResp] at h
  · rw [h1] at h; simp [unauthResp, errResp] at h
  · rw [h1] at h; simp [noInputResp, errResp] at h
  · rcases mapError_cases m with hm | hm | hm <;> rw [hm] at h1 <;> rw [h1] at h <;>
      simp [tooShortResp, invalidLangResp, failedResp, errResp] at h
  · exact ⟨t, g, b, h1⟩

lemma handle_error_facts (cfg : Config) (svc : Services) (req : Request) (c : String)
    (h : (handle cfg svc req).1.error = some c) :
    c ∈ ["missing_conversation", "missing_language", "unauthenticated", "no_input",
      "audio_too_short", "invalid_language", "processing_failed"] ∧
    400 ≤ (handle cfg svc req).1.status ∧ (handle cfg svc req).1.status < 600 ∧
    (handle cfg svc req).1.message.isSome = true := by
  rcases handle_shape cfg svc req with h1 | h1 | h1 | h1 | ⟨m, h1⟩ | ⟨t, g, b, h1⟩
  · rw [h1] at h ⊢
    simp only [mcResp, errResp, Option.some.injEq] at h
    subst h
    exact ⟨by decide, by decide, by decide, by decide⟩
  · rw [h1] at h ⊢
    simp only [mlResp, errResp, Option.some.injEq] at h
    subst h
    exact ⟨by decide, by decide, by decide, by decide⟩
  · rw [h1] at h ⊢
    simp only [unauthResp, errResp, Option.some.injEq] at h
    subst h
    exact ⟨by decide, by decide, by decide, by decide⟩
  · rw [h1] at h ⊢
    simp only [noInputResp, errResp, Option.some.injEq] at h
    subst h
    exact ⟨by decide, by decide, by decide, by decide⟩
  · rcases mapError_cases m with hm | hm | hm <;> rw [hm] at h1 <;> rw [h1] at h ⊢ <;>
      simp only [tooShortResp, invalidLangResp, failedResp, errResp,
        Option.some.injEq] at h <;> subst h <;>
      exact ⟨by decide, by decide, by decide, by decide⟩
  · rw [h1] at h
    simp [okResp] at h

lemma handle0_cases_full (svc : Services0) (req : Request0) :
    (req.hasAudio = false ∧ handle0 svc req = (noAudioResp, [])) ∨
    (req.hasAudio = true ∧ ∃ m, svc.transcribe = CallResult.fail m ∧
      handle0 svc req = (failedResp0, [Call.transcribe])) ∨
    (req.hasAudio = true ∧ ∃ t m, svc.transcribe = CallResult.ok t ∧
      svc.generate = CallResult.fail m ∧
      handle0 svc req = (failedResp0, [Call.transcribe,
        Call.generate [⟨"system", sysPrompt0 ((if req.targetLanguage = "" then "English"
          else req.targetLanguage).jsTrim)⟩, ⟨"user", t.jsTrim⟩]])) ∨
    (req.hasAudio = true ∧ ∃ t g m, svc.transcribe = CallResult.ok t ∧
      svc.generate = CallResult.ok g ∧ svc.synthesize = CallResult.fail m ∧
      handle0 svc req = (failedResp0, [Call.transcribe,
        Call.generate [⟨"system", sysPrompt0 ((if req.targetLanguage = "" then "English"
          else req.targetLanguage).jsTrim)⟩, ⟨"user", t.jsTrim⟩], Call.synthesize])) ∨
    (req.hasAudio = true ∧ ∃ t g b, svc.transcribe = CallResult.ok t ∧
      svc.generate = CallResult.ok g ∧ svc.synthesize = CallResult.ok b ∧
      handle0 svc req = (okResp0 t.jsTrim g.jsTrim b, [Call.transcribe,
        Call.generate [⟨"system", sysPrompt0 ((if req.targetLanguage = "" then "English"
          else req.targetLanguage).jsTrim)⟩, ⟨"user", t.jsTrim⟩], Call.synthesize])) := by
  cases hA : req.hasAudio with
  | false => exact Or.inl ⟨rfl, by simp [handle0, hA]⟩
  | true =>
    cases h1 : svc.transcribe with
    | fail m =>
      exact Or.inr (Or.inl ⟨rfl, m, rfl, by simp [handle0, hA, h1]⟩)
    | ok t =>
      cases h2 : svc.generate with
      | fail m =>
        exact Or.inr (Or.inr (Or.inl ⟨rfl, t, m, rfl, rfl, by simp [handle0, hA, h1, h2]⟩))
      | ok g =>
        cases h3 : svc.synthesize with
        | fail m =>
          exact Or.inr (Or.inr (Or.inr (Or.inl ⟨rfl, t, g, m, rfl, rfl, rfl,
            by simp [handle0, hA, h1, h2, h3]⟩)))
        | ok b =>
          exact Or.inr (Or.inr (Or.inr (Or.inr ⟨rfl, t, g, b, rfl, rfl, rfl,
            by simp [handle0, hA, h1, h2, h3]⟩)))

lemma handle0_error_facts (svc : Services0) (req : Request0) (c : String)
    (h : (handle0 svc req).1.error = some c) :
    c ∈ ["no_audio", "processing_failed"] ∧ 400 ≤ (handle0 svc req).1.status ∧
      (handle0 svc req).1.status < 600 ∧ (handle0 svc req).1.message = none := by
  rcases handle0_cases_full svc req with ⟨_, h1⟩ | ⟨_, m, _, h1⟩ | ⟨_, t, m, _, _, h1⟩ |
    ⟨_, t, g, m, _, _, _, h1⟩ | ⟨_, t, g, b, _, _, _, h1⟩
  · rw [h1] at h ⊢
    simp only [noAudioResp, errResp0, Option.some.injEq] at h
    subst h
    exact ⟨by decide, by decide, by decide, by decide⟩
  · rw [h1] at h ⊢
    simp only [failedResp0, errResp0, Option.some.injEq] at h
    subst h
    exact ⟨by decide, by decide, by decide, by decide⟩
  · rw [h1] at h ⊢
    simp only [failedResp0, errResp0, Option.some.injEq] at h
    subst h
    exact ⟨by decide, by norm_num [failedResp0, errResp0], by norm_num [failedResp0, errResp0],
      by simp [failedResp0, errResp0]⟩
  · rw [h1] at h ⊢
    simp only [failedResp0, errResp0, Option.some.injEq] at h
    subst h
    exact ⟨by decide, by norm_num [failedResp0, errResp0], by norm_num [failedResp0, errResp0],
      by simp [failedResp0, errResp0]⟩
  · rw [h1] at h
    simp [okResp0] at h

lemma handle0_success_shape (svc : Services0) (req : Request0)
    (h : (handle0 svc req).1.error = none) :
    ∃ t g b, (handle0 svc req).1 = okResp0 t g b := by
  rcases handle0_cases_full svc req with ⟨_, h1⟩ | ⟨_, m, _, h1⟩ | ⟨_, t, m, _, _, h1⟩ |
    ⟨_, t, g, m, _, _, _, h1⟩ | ⟨_, t, g, b, _, _, _, h1⟩
  · rw [h1] at h; simp [noAudioResp, errResp0] at h
  · rw [h1] at h; simp [failedResp0, errResp0] at h
  · rw [h1] at h; simp [failedResp0, errResp0] at h
  · rw [h1] at h; simp [failedResp0, errResp0] at h
  · exact ⟨t.jsTrim, g.jsTrim, b, by rw [h1]⟩

lemma cleanStage_persist (cfg : Config) (svc : Services) (a c u : String) (hist : List Turn)
    (t : String) (tr : List Call) (hAdmin : cfg.adminInit = true) (hu : u ≠ "")
    (h : (cleanStage cfg svc a c u hist t tr).1.error = none) :
    Call.persist u c ∈ (cleanStage cfg svc a c u hist t tr).2 := by
  rcases cleanStage_cases_full cfg svc a c u hist t tr with ⟨m0, _, hm0, hc⟩ | ⟨t2, mid, hmid, hc⟩
  · rw [hc] at h
    have := (mapError_isError m0).2
    rw [h] at this
    simp at this
  · rw [hc] at h ⊢
    rcases genStage_cases_full cfg svc a c u hist t2 mid with
      ⟨m0, _, hg⟩ | ⟨g, m0, _, _, hg⟩ | ⟨g, b, post, _, _, hpost, hg⟩
    · rw [hg] at h
      have := (mapError_isError m0).2
      rw [h] at this
      simp at this
    · rw [hg] at h
      have := (mapError_isError m0).2
      rw [h] at this
      simp at this
    · rw [hg]
      rw [hpost, if_pos ⟨hAdmin, hu⟩]
      simp

lemma handle_persist (cfg : Config) (svc : Services) (req : Request)
    (hAdmin : cfg.adminInit = true) (hu : req.uid.jsTrim ≠ "")
    (h : (handle cfg svc req).1.error = none) :
    Call.persist req.uid.jsTrim req.conversationId.jsTrim ∈ (handle cfg svc req).2 := by
  rcases handle_cases_full cfg svc req with
    ⟨_, h1⟩ | ⟨_, _, h1⟩ | ⟨_, _, _, h1⟩ | ⟨_, _, m0, hm0, h1⟩ | ⟨_, _, t0, ht0, h1⟩ |
    ⟨_, _, s, hs, h1⟩ | ⟨_, _, _, h1⟩
  · rw [h1] at h; simp [mcResp, errResp] at h
  · rw [h1] at h; simp [mlResp, errResp] at h
  · rw [h1] at h; simp [unauthResp, errResp] at h
  · rw [h1] at h
    have := (mapError_isError m0).2
    rw [h] at this
    simp at this
  · rw [h1] at h ⊢
    exact cleanStage_persist cfg svc _ _ _ _ _ _ hAdmin hu h
  · rw [h1] at h ⊢
    exact cleanStage_persist cfg svc _ _ _ _ _ _ hAdmin hu h
  · rw [h1] at h; simp [noInputResp, errResp] at h

/-- C1: for every client-supplied history, the history passed to the
reply-generation service is the suffix of the most recent at-most-12
entries (oldest dropped first): `safeHistory` is a suffix of the input of
length at most 12, a history of at most 12 entries passes through
unchanged and in order, and every generation call made by the handler
carries exactly the system prompt, this trimmed history and the new user
turn. -/
theorem history_trim_spec (l : List Turn) :
    (safeHistory l).length ≤ 12 ∧ safeHistory l <:+ l ∧
      (l.length ≤ 12 → safeHistory l = l) ∧
      ∀ (cfg : Config) (svc : Services) (req : Request) (ms : List Turn),
        Call.generate ms ∈ (handle cfg svc req).2 →
        ∃ t, ms = mkMessages req.answerLanguage.jsTrim
          (safeHistory (histList req.history)) t := by
  refine ⟨?_, List.drop_suffix _ _, ?_, ?_⟩
  · simp only [safeHistory, List.length_drop, MAX_TURNS]
    omega
  · intro h
    have h0 : l.length - MAX_TURNS * 2 = 0 := by
      simp only [MAX_TURNS]
      omega
    simp [safeHistory, h0]
  · intro cfg svc req ms hmem
    exact handle_gen_msgs cfg svc req ms hmem

set_option maxRecDepth 100000 in
/-- Witness for C1: a concrete 2-entry history passes through unchanged,
and in a concrete run the generation call carries exactly the system
prompt, that history and the user turn. -/
theorem history_trim_spec_witness :
    safeHistory histSample = histSample ∧
      ∃ t, mkMessages "English" (safeHistory histSample) "Question" =
        mkMessages reqHist.answerLanguage.jsTrim (safeHistory (histList reqHist.history)) t :=
  ⟨(history_trim_spec histSample).2.2.1 (by decide),
   (history_trim_spec histSample).2.2.2 cfgPlain svcAllOk reqHist
     (mkMessages "English" (safeHistory histSample) "Question") (by decide)⟩

/-- C3: a conversation id that is empty after trimming is rejected with
HTTP 400 and code missing_conversation; with a conversation id present,
missing languages are rejected with HTTP 400 and code missing_language;
both rejections happen with an empty call trace, i.e. before any external
service is invoked. -/
theorem validation_reject_spec (cfg : Config) (svc : Services) (req : Request) :
    (req.conversationId.jsTrim = "" → handle cfg svc req = (mcResp, [])) ∧
      (req.conversationId.jsTrim ≠ "" → req.answerLanguage.jsTrim = "" →
        req.speakLanguage.jsTrim = "" → handle cfg svc req = (mlResp, [])) ∧
      mcResp.status = 400 ∧ mcResp.error = some "missing_conversation" ∧
      mlResp.status = 400 ∧ mlResp.error = some "missing_language" := by
  refine ⟨?_, ?_, rfl, rfl, rfl, rfl⟩
  · intro h
    simp [handle, h]
  · intro h1 h2 h3
    simp [handle, h1, h2, h3]

set_option maxRecDepth 100000 in
/-- Witness for C3: concrete requests with a blank conversation id and
with both languages empty are rejected as stated, with no external call. -/
theorem validation_reject_spec_witness :
    handle cfgPlain svcAllOk reqNoConv = (mcResp, []) ∧
      handle cfgPlain svcAllOk reqNoLang = (mlResp, []) :=
  ⟨(validation_reject_spec cfgPlain svcAllOk reqNoConv).1 (by decide),
   (validation_reject_spec cfgPlain svcAllOk reqNoLang).2.1 (by decide) (by decide)
     (by decide)⟩

/-- C8: persistence is best-effort — the handler result (response and
trace) does not depend on the outcome of the Firestore write, so a failed
write returns exactly what a successful write returns; and a successful
response is the success JSON carrying the trimmed conversation id. -/
theorem persistence_best_effort_spec (cfg : Config) (svc : Services) (req : Request)
    (p q : CallResult Unit) :
    handle cfg (setPersist svc p) req = handle cfg (setPersist svc q) req ∧
      ((handle cfg (setPersist svc p) req).1.error = none →
        ∃ t g b, (handle cfg (setPersist svc p) req).1 =
          okResp req.conversationId.jsTrim t g b) := by
  refine ⟨rfl, ?_⟩
  intro h
  exact handle_success_shape cfg (setPersist svc p) req h

set_option maxRecDepth 100000 in
/-- Witness for C8: with a concrete failing Firestore write the handler
returns exactly the successful response of the succeeding write. -/
theorem persistence_best_effort_spec_witness :
    handle cfgAdmin (setPersist svcAllOk (CallResult.fail "db down")) reqUidOk =
        handle cfgAdmin (setPersist svcAllOk (CallResult.ok ())) reqUidOk ∧
      ∃ t g b, (handle cfgAdmin (setPersist svcAllOk (CallResult.fail "db down")) reqUidOk).1 =
        okResp reqUidOk.conversationId.jsTrim t g b :=
  ⟨(persistence_best_effort_spec cfgAdmin svcAllOk reqUidOk (CallResult.fail "db down")
      (CallResult.ok ())).1,
   (persistence_best_effort_spec cfgAdmin svcAllOk reqUidOk (CallResult.fail "db down")
      (CallResult.ok ())).2 (by decide)⟩

/-- C10: a history field that is unparseable JSON or parses to a non-array
value is silently replaced by the empty history: the handler result is
identical to the absent-history result, so no error response arises from
that condition. -/
theorem history_fallback_spec (cfg : Config) (svc : Services) (req : Request) :
    handle cfg svc (setHistory req HistField.malformed) =
        handle cfg svc (setHistory req HistField.absent) ∧
      handle cfg svc (setHistory req HistField.notArray) =
        handle cfg svc (setHistory req HistField.absent) ∧
      histList HistField.malformed = [] ∧ histList HistField.notArray = [] :=
  ⟨rfl, rfl, rfl, rfl⟩

set_option maxRecDepth 100000 in
/-- C2 counterexample: the lowercased transcription failure message
"audio file is shorter than the minimum audio length" contains neither
"too short" nor "invalid"+"language", so the claim predicts the generic
500 processing_failed; the handler instead answers 400 audio_too_short,
because the first branch of the catch handler also matches "shorter
than". -/
theorem errmap_counterexample :
    occursIn "Audio file is shorter than the minimum audio length".jsLower "too short"
        = false ∧
      (occursIn "Audio file is shorter than the minimum audio length".jsLower "invalid" &&
        occursIn "Audio file is shorter than the minimum audio length".jsLower "language")
        = false ∧
      Call.transcribe ∈ (handle cfgPlain svcSttShort reqAudio).2 ∧
      (handle cfgPlain svcSttShort reqAudio).1 = tooShortResp ∧
      tooShortResp.status = 400 ∧ tooShortResp.error = some "audio_too_short" ∧
      tooShortResp ≠ failedResp := by decide

/-- C2 amended: every failure thrown during processing is caught and the
response is `mapError` of its message — never re-thrown. On the lowercased
message the mapping is: "shorter than" or "too short" present gives 400
audio_too_short; otherwise "invalid" and "language" both present gives 400
invalid_language; otherwise 500 processing_failed. In the original
variant (part_000) every caught failure maps to the bare 500
processing_failed regardless of the message. -/
theorem errmap_spec (cfg : Config) (svc : Services) (req : Request) (m : String) :
    (((svc.transcribe = CallResult.fail m ∧ Call.transcribe ∈ (handle cfg svc req).2) ∨
        (svc.clean = CallResult.fail m ∧ Call.clean ∈ (handle cfg svc req).2) ∨
        (svc.generate = CallResult.fail m ∧
          ∃ ms, Call.generate ms ∈ (handle cfg svc req).2) ∨
        (svc.synthesize = CallResult.fail m ∧ Call.synthesize ∈ (handle cfg svc req).2)) →
      (handle cfg svc req).1 = mapError m) ∧
    ((occursIn m.jsLower "shorter than" || occursIn m.jsLower "too short") = true →
      mapError m = tooShortResp) ∧
    ((occursIn m.jsLower "shorter than" || occursIn m.jsLower "too short") = false →
      (occursIn m.jsLower "invalid" && occursIn m.jsLower "language") = true →
      mapError m = invalidLangResp) ∧
    ((occursIn m.jsLower "shorter than" || occursIn m.jsLower "too short") = false →
      (occursIn m.jsLower "invalid" && occursIn m.jsLower "language") = false →
      mapError m = failedResp) ∧
    tooShortResp = errResp 400 "audio_too_short"
      "Audio too short. Please record at least 1 second." ∧
    invalidLangResp = errResp 400 "invalid_language" "Unsupported language code." ∧
    failedResp = errResp 500 "processing_failed"
      "Something went wrong while processing input." ∧
    ∀ (svc0 : Services0) (req0 : Request0) (m0 : String),
      ((svc0.transcribe = CallResult.fail m0 ∧ Call.transcribe ∈ (handle0 svc0 req0).2) ∨
        (svc0.generate = CallResult.fail m0 ∧
          ∃ ms, Call.generate ms ∈ (handle0 svc0 req0).2) ∨
        (svc0.synthesize = CallResult.fail m0 ∧ Call.synthesize ∈ (handle0 svc0 req0).2)) →
      (handle0 svc0 req0).1 = failedResp0 := by
  refine ⟨?_, ?_, ?_, ?_, rfl, rfl, rfl, ?_⟩
  · rintro (⟨h1, h2⟩ | ⟨h1, h2⟩ | ⟨h1, ms, h2⟩ | ⟨h1, h2⟩)
    · rw [handle_fail_transcribe cfg svc req m h1 h2]
    · exact (handle_fail_clean cfg svc req m h1 h2).1
    · exact (handle_fail_gen cfg svc req m ms h1 h2).1
    · exact (handle_fail_syn cfg svc req m h1 h2).1
  · intro h
    simp [mapError, h]
  · intro h1 h2
    simp [mapError, h1, h2]
  · intro h1 h2
    simp [mapError, h1, h2]
  · rintro svc0 req0 m0 (⟨h1, h2⟩ | ⟨h1, ms, h2⟩ | ⟨h1, h2⟩) <;>
      rcases handle0_cases_full svc0 req0 with ⟨_, hh⟩ | ⟨_, m1, hm1, hh⟩ |
        ⟨_, t, m1, ht, hm1, hh⟩ | ⟨_, t, g, m1, ht, hg1, hm1, hh⟩ | ⟨_, t, g, b, ht, hg1, hs1, hh⟩
    · rw [hh] at h2; simp at h2
    · rw [hh]
    · rw [h1] at ht; exact absurd ht (by simp)
    · rw [h1] at ht; exact absurd ht (by simp)
    · rw [h1] at ht; exact absurd ht (by simp)
    · rw [hh] at h2; simp at h2
    · rw [hh] at h2; simp at h2
    · rw [hh]
    · rw [h1] at hg1; exact absurd hg1 (by simp)
    · rw [h1] at hg1; exact absurd hg1 (by simp)
    · rw [hh] at h2; simp at h2
    · rw [hh] at h2; simp at h2
    · rw [hh] at h2; simp at h2
    · rw [hh]
    · rw [h1] at hs1; exact absurd hs1 (by simp)

set_option maxRecDepth 100000 in
/-- Witness for the amended C2: a concrete failing generation call makes
the handler answer with the mapped error, here 500 processing_failed for
the message "boom". -/
theorem errmap_spec_witness :
    (handle cfgPlain svcGenFail reqTextOnly).1 = mapError "boom" ∧
      mapError "boom" = failedResp :=
  ⟨(errmap_spec cfgPlain svcGenFail reqTextOnly "boom").1
      (Or.inr (Or.inr (Or.inl ⟨rfl,
        mkMessages "English" (safeHistory []) "What is two plus two", by decide⟩))),
   (errmap_spec cfgPlain svcGenFail reqTextOnly "boom").2.2.2.1 (by decide) (by decide)⟩

set_option maxRecDepth 100000 in
/-- C4 counterexample: a request with a 100-byte audio payload (below the
5000-byte threshold) and no text is rejected with code no_input — not
audio_too_short — and no external call is made. -/
theorem small_audio_counterexample :
    (handle cfgPlain svcAllOk reqSmallAudio).1 = noInputResp ∧
      (handle cfgPlain svcAllOk reqSmallAudio).2 = [] ∧
      noInputResp.error = some "no_input" ∧
      noInputResp.error ≠ some "audio_too_short" := by decide

/-- C4 amended: an audio payload below 5000 bytes is never transcribed;
when the request also carries no usable text and passes the earlier
validation gates, it is rejected with 400 no_input and an empty call
trace. The audio_too_short code arises only from the catch handler
mapping of thrown messages, not from the request validator. -/
theorem small_audio_spec (cfg : Config) (svc : Services) (req : Request) (n : Nat)
    (hn : req.audioSize = some n) (hlt : n < 5000) :
    Call.transcribe ∉ (handle cfg svc req).2 ∧
      (textValue req = none → passedValidation cfg svc req →
        handle cfg svc req = (noInputResp, [])) := by
  have ha : audioOK req = false := by
    simp [audioOK, hn]
    omega
  constructor
  · intro hmem
    rcases handle_cases_full cfg svc req with
      ⟨_, h1⟩ | ⟨_, _, h1⟩ | ⟨_, _, _, h1⟩ | ⟨_, hA, _⟩ | ⟨_, hA, _⟩ |
      ⟨_, _, s, hs, h1⟩ | ⟨_, _, _, h1⟩
    · rw [h1] at hmem; simp at hmem
    · rw [h1] at hmem; simp at hmem
    · rw [h1] at hmem; simp at hmem
    · rw [ha] at hA; exact Bool.noConfusion hA
    · rw [ha] at hA; exact Bool.noConfusion hA
    · rw [h1] at hmem
      obtain ⟨rest, hr, _, hsg⟩ := cleanStage_trace cfg svc req.answerLanguage.jsTrim
        req.conversationId.jsTrim req.uid.jsTrim (histList req.history) s []
      rw [hr] at hmem
      rw [List.nil_append] at hmem
      have := hsg _ hmem
      simp [stageNo] at this
    · rw [h1] at hmem; simp at hmem
  · intro ht hpass
    rcases handle_cases_full cfg svc req with
      ⟨hc, h1⟩ | ⟨_, hl, h1⟩ | ⟨_, _, hu, h1⟩ | ⟨_, hA, _⟩ | ⟨_, hA, _⟩ |
      ⟨_, _, s, hs, h1⟩ | ⟨_, _, _, h1⟩
    · exact absurd hc hpass.1
    · exact absurd hl hpass.2.1
    · exact absurd hu hpass.2.2
    · rw [ha] at hA; exact Bool.noConfusion hA
    · rw [ha] at hA; exact Bool.noConfusion hA
    · rw [ht] at hs; exact Option.noConfusion hs
    · exact h1

set_option maxRecDepth 100000 in
/-- Witness for the amended C4: the concrete 100-byte-audio request is not
transcribed and is rejected with no_input before any external call. -/
theorem small_audio_spec_witness :
    Call.transcribe ∉ (handle cfgPlain svcAllOk reqSmallAudio).2 ∧
      handle cfgPlain svcAllOk reqSmallAudio = (noInputResp, []) :=
  ⟨(small_audio_spec cfgPlain svcAllOk reqSmallAudio 100 rfl (by decide)).1,
   (small_audio_spec cfgPlain svcAllOk reqSmallAudio 100 rfl (by decide)).2 rfl
     ⟨by decide, by decide, by decide⟩⟩

set_option maxRecDepth 100000 in
/-- C5 counterexample: a request whose uid differs from the uid decoded
out of its Bearer token is answered with error code unauthenticated,
which lies outside the six-code vocabulary of the claim. -/
theorem error_vocab_counterexample :
    (handle cfgAdmin svcTok reqUid).1.error = some "unauthenticated" ∧
      "unauthenticated" ∉ (["missing_conversation", "missing_language", "audio_too_short",
        "no_input", "invalid_language", "processing_failed"] : List String) := by decide

/-- C5 amended: every error response of the updated handler carries a
code from the seven-element vocabulary — the six claimed codes plus
unauthenticated — with an HTTP 4xx/5xx status and a human-readable
message; every error response of the original variant carries a code from
{no_audio, processing_failed} with a 4xx/5xx status and no message
field at all. -/
theorem error_vocab_spec :
    (∀ (cfg : Config) (svc : Services) (req : Request) (c : String),
      (handle cfg svc req).1.error = some c →
        c ∈ ["missing_conversation", "missing_language", "unauthenticated", "no_input",
          "audio_too_short", "invalid_language", "processing_failed"] ∧
        400 ≤ (handle cfg svc req).1.status ∧ (handle cfg svc req).1.status < 600 ∧
        (handle cfg svc req).1.message.isSome = true) ∧
    ∀ (svc0 : Services0) (req0 : Request0) (c : String),
      (handle0 svc0 req0).1.error = some c →
        c ∈ ["no_audio", "processing_failed"] ∧ 400 ≤ (handle0 svc0 req0).1.status ∧
          (handle0 svc0 req0).1.status < 600 ∧ (handle0 svc0 req0).1.message = none :=
  ⟨fun cfg svc req c h => handle_error_facts cfg svc req c h,
   fun svc0 req0 c h => handle0_error_facts svc0 req0 c h⟩

set_option maxRecDepth 100000 in
/-- Witness for the amended C5, at the unauthenticated response of the
updated handler and the no_audio response of the original variant. -/
theorem error_vocab_spec_witness :
    "unauthenticated" ∈ ["missing_conversation", "missing_language", "unauthenticated",
      "no_input", "audio_too_short", "invalid_language", "processing_failed"] ∧
      "no_audio" ∈ ["no_audio", "processing_failed"] :=
  ⟨(error_vocab_spec.1 cfgAdmin svcTok reqUid "unauthenticated" (by decide)).1,
   (error_vocab_spec.2 svc0Ok ⟨"English", false⟩ "no_audio" (by decide)).1⟩

set_option maxRecDepth 100000 in
/-- C6 counterexample: a successful response of the original variant
(part_000) carries no conversationId field, refuting the claim for that
variant of the endpoint. -/
theorem success_shape_counterexample :
    (handle0 svc0Ok req0Audio).1.error = none ∧
      (handle0 svc0Ok req0Audio).1.status = 200 ∧
      (handle0 svc0Ok req0Audio).1.transcript = some "2+2" ∧
      (handle0 svc0Ok req0Audio).1.conversationId = none := by decide

/-- C6 amended: every successful response of the updated handler is the
JSON object {conversationId, transcript, text, audioBase64}; every
successful response of the original variant is {transcript, text,
audioBase64} with no conversationId field. -/
theorem success_shape_spec :
    (∀ (cfg : Config) (svc : Services) (req : Request),
      (handle cfg svc req).1.error = none →
        ∃ t g b, (handle cfg svc req).1 = okResp req.conversationId.jsTrim t g b ∧
          (handle cfg svc req).1.conversationId = some req.conversationId.jsTrim ∧
          (handle cfg svc req).1.transcript = some t ∧
          (handle cfg svc req).1.text = some g ∧
          (handle cfg svc req).1.audioBase64 = some b) ∧
    ∀ (svc0 : Services0) (req0 : Request0),
      (handle0 svc0 req0).1.error = none →
        ∃ t g b, (handle0 svc0 req0).1 = okResp0 t g b ∧
          (handle0 svc0 req0).1.conversationId = none ∧
          (handle0 svc0 req0).1.transcript = some t ∧
          (handle0 svc0 req0).1.text = some g ∧
          (handle0 svc0 req0).1.audioBase64 = some b := by
  constructor
  · intro cfg svc req h
    obtain ⟨t, g, b, hh⟩ := handle_success_shape cfg svc req h
    exact ⟨t, g, b, hh, by rw [hh]; rfl, by rw [hh]; rfl, by rw [hh]; rfl, by rw [hh]; rfl⟩
  · intro svc0 req0 h
    obtain ⟨t, g, b, hh⟩ := handle0_success_shape svc0 req0 h
    exact ⟨t, g, b, hh, by rw [hh]; rfl, by rw [hh]; rfl, by rw [hh]; rfl, by rw [hh]; rfl⟩

set_option maxRecDepth 100000 in
/-- Witness for the amended C6, at a successful run of each variant. -/
theorem success_shape_spec_witness :
    (∃ t g b, (handle cfgPlain svcAllOk reqTextOnly).1 =
        okResp reqTextOnly.conversationId.jsTrim t g b ∧
      (handle cfgPlain svcAllOk reqTextOnly).1.conversationId =
        some reqTextOnly.conversationId.jsTrim ∧
      (handle cfgPlain svcAllOk reqTextOnly).1.transcript = some t ∧
      (handle cfgPlain svcAllOk reqTextOnly).1.text = some g ∧
      (handle cfgPlain svcAllOk reqTextOnly).1.audioBase64 = some b) ∧
    ∃ t g b, (handle0 svc0Ok req0Audio).1 = okResp0 t g b ∧
      (handle0 svc0Ok req0Audio).1.conversationId = none ∧
      (handle0 svc0Ok req0Audio).1.transcript = some t ∧
      (handle0 svc0Ok req0Audio).1.text = some g ∧
      (handle0 svc0Ok req0Audio).1.audioBase64 = some b :=
  ⟨success_shape_spec.1 cfgPlain svcAllOk reqTextOnly (by decide),
   success_shape_spec.2 svc0Ok req0Audio (by decide)⟩

set_option maxRecDepth 100000 in
/-- C7 counterexample: a valid text-only request is processed successfully
with call trace [generate, synthesize] — the transcription service is
never invoked on it, refuting "on every request ... transcription
first". -/
theorem pipeline_counterexample :
    Call.transcribe ∉ (handle cfgPlain svcAllOk reqTextOnly).2 ∧
      (handle cfgPlain svcAllOk reqTextOnly).1.error = none ∧
      (handle cfgPlain svcAllOk reqTextOnly).2 =
        [Call.generate (mkMessages "English" (safeHistory []) "What is two plus two"),
          Call.synthesize] := by decide

/-- C7 amended: the external calls of one request happen strictly in the
pipeline order transcribe, clean, generate, synthesize, persist, each at
most once; transcription happens only when the audio path is taken
(text-only requests skip it), cleanup only when CLEAN_TRANSCRIPT is
enabled, and every generation call carries the system prompt plus the
trimmed history plus the new user turn; a failure at any stage makes its
call the last external call of the trace — no later generate, synthesize
or persist call happens — and the response is the mapped user-facing
error. -/
theorem pipeline_spec (cfg : Config) (svc : Services) (req : Request) :
    CallsOrdered (handle cfg svc req).2 ∧
    (Call.transcribe ∈ (handle cfg svc req).2 → audioOK req = true) ∧
    (Call.clean ∈ (handle cfg svc req).2 → cfg.cleanTranscript = true) ∧
    (∀ ms, Call.generate ms ∈ (handle cfg svc req).2 →
      ∃ t, ms = mkMessages req.answerLanguage.jsTrim
        (safeHistory (histList req.history)) t) ∧
    (∀ m, svc.transcribe = CallResult.fail m → Call.transcribe ∈ (handle cfg svc req).2 →
      handle cfg svc req = (mapError m, [Call.transcribe])) ∧
    (∀ m, svc.clean = CallResult.fail m → Call.clean ∈ (handle cfg svc req).2 →
      (handle cfg svc req).1 = mapError m ∧
        (∀ ms, Call.generate ms ∉ (handle cfg svc req).2) ∧
        Call.synthesize ∉ (handle cfg svc req).2 ∧
        ∀ u2 c2, Call.persist u2 c2 ∉ (handle cfg svc req).2) ∧
    (∀ m ms, svc.generate = CallResult.fail m → Call.generate ms ∈ (handle cfg svc req).2 →
      (handle cfg svc req).1 = mapError m ∧ Call.synthesize ∉ (handle cfg svc req).2 ∧
        ∀ u2 c2, Call.persist u2 c2 ∉ (handle cfg svc req).2) ∧
    (∀ m, svc.synthesize = CallResult.fail m → Call.synthesize ∈ (handle cfg svc req).2 →
      (handle cfg svc req).1 = mapError m ∧
        ∀ u2 c2, Call.persist u2 c2 ∉ (handle cfg svc req).2) ∧
    (∀ m, 400 ≤ (mapError m).status ∧ (mapError m).error.isSome = true) :=
  ⟨handle_ordered cfg svc req,
   fun h2 => handle_transcribe_audio cfg svc req h2,
   fun h2 => handle_clean_enabled cfg svc req h2,
   fun ms h2 => handle_gen_msgs cfg svc req ms h2,
   fun m h1 h2 => handle_fail_transcribe cfg svc req m h1 h2,
   fun m h1 h2 => handle_fail_clean cfg svc req m h1 h2,
   fun m ms h1 h2 => handle_fail_gen cfg svc req m ms h1 h2,
   fun m h1 h2 => handle_fail_syn cfg svc req m h1 h2,
   fun m => mapError_isError m⟩

set_option maxRecDepth 100000 in
/-- Witness for the amended C7: a concrete audio run shows transcription
implies the audio path, a concrete cleanup-enabled run shows a clean call
implies the flag, the generation call of a failing run carries the system
prompt plus history plus user turn, and that failing generation call
aborts the pipeline — neither synthesis nor the Firestore persist call
happens — returning the mapped error. -/
theorem pipeline_spec_witness :
    audioOK reqAudio = true ∧
      cfgClean.cleanTranscript = true ∧
      (∃ t, mkMessages "English" (safeHistory []) "hello" =
        mkMessages reqUidOk.answerLanguage.jsTrim
          (safeHistory (histList reqUidOk.history)) t) ∧
      (handle cfgPlain svcGenFail reqUidOk).1 = mapError "boom" ∧
      Call.synthesize ∉ (handle cfgPlain svcGenFail reqUidOk).2 ∧
      Call.persist "kid1" "c1" ∉ (handle cfgPlain svcGenFail reqUidOk).2 :=
  ⟨(pipeline_spec cfgPlain svcAllOk reqAudio).2.1 (by decide),
   (pipeline_spec cfgClean svcAllOk reqTextOnly).2.2.1 (by decide),
   (pipeline_spec cfgPlain svcGenFail reqUidOk).2.2.2.1
     (mkMessages "English" (safeHistory []) "hello") (by decide),
   ((pipeline_spec cfgPlain svcGenFail reqUidOk).2.2.2.2.2.2.1 "boom"
     (mkMessages "English" (safeHistory []) "hello") rfl (by decide)).1,
   ((pipeline_spec cfgPlain svcGenFail reqUidOk).2.2.2.2.2.2.1 "boom"
     (mkMessages "English" (safeHistory []) "hello") rfl (by decide)).2.1,
   ((pipeline_spec cfgPlain svcGenFail reqUidOk).2.2.2.2.2.2.1 "boom"
     (mkMessages "English" (safeHistory []) "hello") rfl (by decide)).2.2 "kid1" "c1"⟩

set_option maxRecDepth 100000 in
/-- C9 counterexample: with the admin SDK initialized, uid "kid1" supplied
and a Bearer token verifying to a decoded token whose uid is the empty
string — which differs from "kid1" — the claim predicts a 401; the
handler instead processes the request successfully, because line 104 also
requires the decoded uid to be truthy (non-empty). -/
theorem auth_counterexample :
    firebaseUser cfgAdmin svcTokEmpty reqUid = some "" ∧
      reqUid.uid.jsTrim = "kid1" ∧ ("" : String) ≠ "kid1" ∧
      (handle cfgAdmin svcTokEmpty reqUid).1 ≠ unauthResp ∧
      (handle cfgAdmin svcTokEmpty reqUid).1.error = none := by decide

/-- C9 amended: for a request passing the conversation and language
gates, the handler answers 401 unauthenticated if and only if the
supplied uid is non-empty and the token verifier produced a decoded token
whose uid is non-empty and differs from the supplied uid (a Bearer header
and an initialized admin SDK are prerequisites of `firebaseUser` being
`some`). The rejection happens with an empty trace; a missing, malformed
or verification-failing token (firebaseUser = none) never causes the 401;
and when the admin SDK is initialized, the uid non-empty and the response
successful, the turn is persisted under that (unverified) uid and
conversation id. -/
theorem auth_spec (cfg : Config) (svc : Services) (req : Request)
    (hc : req.conversationId.jsTrim ≠ "") (ha : req.answerLanguage.jsTrim ≠ "")
    (hs : req.speakLanguage.jsTrim ≠ "") :
    ((handle cfg svc req).1 = unauthResp ↔
      req.uid.jsTrim ≠ "" ∧ ∃ d, firebaseUser cfg svc req = some d ∧ d ≠ "" ∧
        req.uid.jsTrim ≠ d) ∧
    ((handle cfg svc req).1 = unauthResp → (handle cfg svc req).2 = []) ∧
    (firebaseUser cfg svc req = none → (handle cfg svc req).1 ≠ unauthResp) ∧
    (cfg.adminInit = true → req.uid.jsTrim ≠ "" → (handle cfg svc req).1.error = none →
      Call.persist req.uid.jsTrim req.conversationId.jsTrim ∈ (handle cfg svc req).2) := by
  have hl2 : ¬(req.answerLanguage.jsTrim = "" ∨ req.speakLanguage.jsTrim = "") := by
    rintro (h | h)
    · exact ha h
    · exact hs h
  have hBool : ∀ d, firebaseUser cfg svc req = some d → d ≠ "" → req.uid.jsTrim ≠ d →
      uidMismatch req.uid.jsTrim (firebaseUser cfg svc req) = true := by
    intro d hd hne hneq
    rw [hd]
    simp [uidMismatch, hne, hneq]
  have hfwd : (handle cfg svc req).1 = unauthResp →
      req.uid.jsTrim ≠ "" ∧ ∃ d, firebaseUser cfg svc req = some d ∧ d ≠ "" ∧
        req.uid.jsTrim ≠ d := by
    intro heq
    rcases handle_cases_full cfg svc req with
      ⟨hc1, h1⟩ | ⟨_, hl1, h1⟩ | ⟨_, _, hu1, h1⟩ | ⟨_, _, m0, _, h1⟩ | ⟨_, _, t0, _, h1⟩ |
      ⟨_, _, s0, _, h1⟩ | ⟨_, _, _, h1⟩
    · exact absurd hc1 hc
    · exact absurd hl1 hl2
    · obtain ⟨hu1a, hu1b⟩ := hu1
      cases hf : firebaseUser cfg svc req with
      | none =>
        rw [hf] at hu1b
        simp [uidMismatch] at hu1b
      | some d =>
        rw [hf] at hu1b
        simp only [uidMismatch, Bool.and_eq_true, decide_eq_true_eq, ne_eq] at hu1b
        exact ⟨hu1a, d, rfl, hu1b.1, hu1b.2⟩
    · rw [h1] at heq
      exact absurd heq (mapError_ne_unauth m0)
    · rw [h1] at heq
      rcases cleanStage_shape cfg svc req.answerLanguage.jsTrim req.conversationId.jsTrim
          req.uid.jsTrim (histList req.history) t0.jsTrim [Call.transcribe] with
        ⟨m1, hm⟩ | ⟨t2, g2, b2, hok⟩
      · rw [hm] at heq
        exact absurd heq (mapError_ne_unauth m1)
      · rw [hok] at heq
        exact absurd heq (okResp_ne_unauth _ _ _ _)
    · rw [h1] at heq
      rcases cleanStage_shape cfg svc req.answerLanguage.jsTrim req.conversationId.jsTrim
          req.uid.jsTrim (histList req.history) s0 [] with
        ⟨m1, hm⟩ | ⟨t2, g2, b2, hok⟩
      · rw [hm] at heq
        exact absurd heq (mapError_ne_unauth m1)
      · rw [hok] at heq
        exact absurd heq (okResp_ne_unauth _ _ _ _)
    · rw [h1] at heq
      exact absurd heq (by decide)
  have hbwd : (req.uid.jsTrim ≠ "" ∧ ∃ d, firebaseUser cfg svc req = some d ∧ d ≠ "" ∧
      req.uid.jsTrim ≠ d) → handle cfg svc req = (unauthResp, []) := by
    rintro ⟨h1, d, hd, hne, hneq⟩
    have hcond : req.uid.jsTrim ≠ "" ∧
        uidMismatch req.uid.jsTrim (firebaseUser cfg svc req) = true :=
      ⟨h1, hBool d hd hne hneq⟩
    simp only [handle]
    rw [if_neg hc, if_neg hl2, if_pos hcond]
  refine ⟨⟨hfwd, fun h => congrArg Prod.fst (hbwd h)⟩, ?_, ?_, ?_⟩
  · intro h
    rw [hbwd (hfwd h)]
  · intro hf heq
    obtain ⟨_, d, hd, _, _⟩ := hfwd heq
    rw [hf] at hd
    exact Option.noConfusion hd
  · intro hA hu hnone
    exact handle_persist cfg svc req hA hu hnone

set_option maxRecDepth 100000 in
/-- Witness for the amended C9: the mismatching decoded uid "other" makes
the concrete handler answer 401, and a successful run with uid "kid1"
persists the turn under that uid and conversation id. -/
theorem auth_spec_witness :
    (handle cfgAdmin svcTok reqUid).1 = unauthResp ∧
      Call.persist reqUidOk.uid.jsTrim reqUidOk.conversationId.jsTrim ∈
        (handle cfgAdmin svcAllOk reqUidOk).2 :=
  ⟨((auth_spec cfgAdmin svcTok reqUid (by decide) (by decide) (by decide)).1).2
      ⟨by decide, "other", by decide, by decide, by decide⟩,
   (auth_spec cfgAdmin svcAllOk reqUidOk (by decide) (by decide) (by decide)).2.2.2
      rfl (by decide) (by decide)⟩
